import Mathlib

/-!
Shallow embedding of the URL-shortening backend (src/backend/app.py) and
proofs about its behaviour.

Conventions of the embedding:
* The MongoDB `urls` collection is a `List LinkRecord` in natural
  (insertion) order; `find_one` is `List.find?`, `insert_one` appends,
  `find_one_and_update` updates the first match in place.
* Each call to `datetime.utcnow()` in a handler is its own explicit `Int`
  parameter (seconds since an arbitrary epoch), in source order, because
  the source reads the clock several times per request.
* `validators.url` is an external library; handlers take it as a function
  parameter `urlValid`.
* `random.choice` draws are made explicit: a request carries a stream
  `gen : Nat → Fin 6 → Fin 62` of the draws that successive calls of
  `generate_short_code` would make.
* Python exceptions that escape a handler (e.g. `int('abc')` raising
  `ValueError`, which Flask turns into a 500 response) are the
  `Response.serverError` outcome.
-/

namespace UrlShortener

/-- One document of the `urls` collection, with the exact fields
`shorten_url` inserts (app.py lines 105–114). Timestamps are `Int`
seconds; `last_accessed` is `none` for Python `None`. -/
structure LinkRecord where
  original_url : String
  short_code : String
  visits : Nat
  created_at : Int
  last_accessed : Option Int
  expires_at : Int
  is_custom : Bool
  validity_minutes : Int
deriving Repr, DecidableEq

/-- The `urls` collection in natural (insertion) order. -/
abbrev Store := List LinkRecord

/-- `urls_collection.find_one({'short_code': code})`. -/
def findByCode (s : Store) (code : String) : Option LinkRecord :=
  s.find? fun r => r.short_code == code

/-- In-place update of the first record satisfying `p`, as Mongo's
`find_one_and_update` does on the unique-indexed `short_code`. -/
def updateFirst (p : LinkRecord → Bool) (f : LinkRecord → LinkRecord) :
    Store → Store
  | [] => []
  | r :: rs => if p r then f r :: rs else r :: updateFirst p f rs

/-- The update document `{'$inc': {'visits': 1}, '$set': {'last_accessed': now}}`. -/
def touch (now : Int) (r : LinkRecord) : LinkRecord :=
  { r with visits := r.visits + 1, last_accessed := some now }

/-- `find_one_and_update({'short_code': code}, {'$inc': ..., '$set': ...},
return_document=True)` (app.py lines 128–132): returns the post-update
document and the updated collection; no match leaves the collection as is. -/
def find_one_and_update (s : Store) (code : String) (now : Int) :
    Option LinkRecord × Store :=
  match findByCode s code with
  | none => (none, s)
  | some r =>
      (some (touch now r), updateFirst (fun x => x.short_code == code) (touch now) s)

/-- `string.ascii_letters + string.digits`: the 62-symbol alphabet of
`generate_short_code` (app.py line 52). -/
def codeChars : List Char :=
  "abcdefghijklmnopqrstuvwxyzABCDEFGHIJKLMNOPQRSTUVWXYZ0123456789".toList

/-- `generate_short_code` (app.py lines 50–53) with its six `random.choice`
draws made explicit as `pick`. -/
def generate_short_code (pick : Fin 6 → Fin 62) : String :=
  String.mk ((List.finRange 6).map fun i => codeChars.getD (pick i).val 'a')

/-- Modelled: CPython's `str.isalnum`, which `is_valid_custom_code` calls on
each character. On ASCII it coincides with `Char.isAlphanum`; beyond ASCII
CPython consults the Unicode character database (letters, digits and numeric
characters are all alphanumeric), which this model carries as an explicit
sample of non-ASCII code points that CPython classifies as alphanumeric
(here: é U+00E9 and Ω U+03A9, both Unicode letters). -/
def nonAsciiAlnumSample : List Char := ['é', 'Ω']

/-- Per-character test of `is_valid_custom_code`: Python `c.isalnum()`. -/
def pyIsAlnum (c : Char) : Bool :=
  c.isAlphanum || nonAsciiAlnumSample.contains c

/-- `is_valid_custom_code` (app.py lines 55–62): `not code` is the
empty-string test, then the length cap, then
`all(c.isalnum() or c in ('-', '_') for c in code)`. -/
def is_valid_custom_code (code : String) : Bool :=
  if code.isEmpty then false
  else if code.length > 20 then false
  else code.toList.all fun c => pyIsAlnum c || c == '-' || c == '_'

/-- A JSON value that `data.get('validity', 30)` can produce: the key
absent (so the default 30 is returned), or present as an int, float,
string, null or bool. -/
inductive PyValue where
  | absent
  | pyInt (n : Int)
  | pyFloat (q : ℚ)
  | pyStr (s : String)
  | pyNone
  | pyBool (b : Bool)
deriving Repr, DecidableEq

/-- Truncation toward zero: Python `int()` applied to a float. -/
def ratTrunc (q : ℚ) : Int := Int.tdiv q.num q.den

/-- A character Python's default `str.strip()` removes: ASCII whitespace
(space, tab, newline, carriage return, vertical tab, form feed). Python
also strips some Unicode spaces, which nothing here exercises. -/
def isPySpace (c : Char) : Bool :=
  c.isWhitespace || c == '\x0b' || c == '\x0c'

/-- Modelled: Python `str.strip()` with no arguments, as called on `url`
and `custom_code` (app.py lines 70–71) — removes leading and trailing
whitespace. -/
def pyStrip (s : String) : String :=
  String.mk (((s.toList.dropWhile isPySpace).reverse.dropWhile isPySpace).reverse)

/-- The numeric value of a run of decimal digit characters. -/
def digitsToNat (ds : List Char) : Nat :=
  ds.foldl (fun n c => 10 * n + (c.toNat - '0'.toNat)) 0

/-- Modelled: Python `int()` applied to a string — strips surrounding
whitespace, allows one optional sign, then requires a nonempty run of
decimal digits; anything else raises `ValueError` (`none` here). -/
def pyIntOfString (s : String) : Option Int :=
  let t := (pyStrip s).toList
  let (sign, digits) :=
    match t with
    | '-' :: rest => ((-1 : Int), rest)
    | '+' :: rest => ((1 : Int), rest)
    | _ => ((1 : Int), t)
  if digits.isEmpty then none
  else if digits.all Char.isDigit then
    some (sign * (digitsToNat digits : Int))
  else none

/-- `int(data.get('validity', 30))` (app.py line 72): `some` is the
integer the call produces, `none` is an uncaught `ValueError`/`TypeError`. -/
def coerceValidity : PyValue → Option Int
  | .absent => some 30
  | .pyInt n => some n
  | .pyFloat q => some (ratTrunc q)
  | .pyStr s => pyIntOfString s
  | .pyNone => none
  | .pyBool b => some (if b then 1 else 0)

/-- `timedelta(minutes=v)` in seconds. -/
def minutes (v : Int) : Int := v * 60

/-- The HTTP outcomes the embedded handlers can produce. -/
inductive Response where
  | created (original_url short_code : String) (expires_at : Int) (is_custom : Bool)
  | badRequest (msg : String)
  | serverError
  | redirect302 (url : String)
  | notFound
  | expired
  | urlInfo (original_url short_code : String) (expires_at : Int) (visits : Nat)
deriving Repr, DecidableEq

/-- Error message of app.py lines 86–88. -/
def invalidCustomMsg : String :=
  "Custom code can only contain letters, numbers, hyphens and underscores (max 20 chars)"

/-- Error message of app.py lines 93–95. -/
def codeTakenMsg : String := "This custom URL is already taken"

/-- The document `shorten_url` inserts (app.py lines 105–114). -/
def mkRecord (original_url short_code : String) (created_at expires_at : Int)
    (is_custom : Bool) (validity : Int) : LinkRecord :=
  { original_url := original_url, short_code := short_code, visits := 0,
    created_at := created_at, last_accessed := none, expires_at := expires_at,
    is_custom := is_custom, validity_minutes := validity }

/-- Whether `code` is absent from the collection: the loop guard
`while urls_collection.find_one({'short_code': short_code})` is false. -/
def freeIn (s : Store) (code : String) : Bool :=
  (findByCode s code).isNone

/-- The code the i-th call of `generate_short_code` would return, given the
stream of random draws. -/
def randomCode (gen : Nat → Fin 6 → Fin 62) (i : Nat) : String :=
  generate_short_code (gen i)

/-- `shorten_url` (app.py lines 64–123). `t1` is the `utcnow()` of line 81
(expiry computation), `t2` the `utcnow()` of line 109 (`created_at`).
`hfresh` witnesses that the retry loop of lines 100–102 terminates: some
index of the draw stream yields a code not in the collection (the loop
returns the first such code and the source retries without bound). -/
def shorten_url (urlValid : String → Bool) (gen : Nat → Fin 6 → Fin 62)
    (store : Store) (url_raw custom_raw : String) (validity_raw : PyValue)
    (t1 t2 : Int)
    (hfresh : ∃ i, freeIn store (randomCode gen i) = true) :
    Response × Store :=
  let original_url := pyStrip url_raw
  let custom_code := pyStrip custom_raw
  match coerceValidity validity_raw with
  | none => (.serverError, store)
  | some validity =>
    if original_url.isEmpty then (.badRequest "URL is required", store)
    else if !urlValid original_url then (.badRequest "Invalid URL format", store)
    else
      let expires_at := t1 + minutes validity
      if !custom_code.isEmpty then
        if !is_valid_custom_code custom_code then (.badRequest invalidCustomMsg, store)
        else if (findByCode store custom_code).isSome then (.badRequest codeTakenMsg, store)
        else
          (.created original_url custom_code expires_at true,
           store ++ [mkRecord original_url custom_code t2 expires_at true validity])
      else
        let short_code := randomCode gen (Nat.find hfresh)
        (.created original_url short_code expires_at false,
         store ++ [mkRecord original_url short_code t2 expires_at false validity])

/-- `redirect_to_original` (app.py lines 125–140). `now1` is the `utcnow()`
inside the atomic update (line 130), `now2` the one of the expiry check
(line 137). The visit increment happens before the expiry check. -/
def redirect_to_original (store : Store) (short_code : String)
    (now1 now2 : Int) : Response × Store :=
  match find_one_and_update store short_code now1 with
  | (none, s) => (.notFound, s)
  | (some url, s) =>
      if url.expires_at < now2 then (.expired, s)
      else (.redirect302 url.original_url, s)

/-- `get_original_url` (app.py lines 142–157): a plain `find_one`, the same
expiry check as the redirect handler, and no write to the collection. -/
def get_original_url (store : Store) (short_code : String) (now : Int) :
    Response × Store :=
  match findByCode store short_code with
  | none => (.notFound, store)
  | some url =>
      if url.expires_at < now then (.expired, store)
      else (.urlInfo url.original_url url.short_code url.expires_at url.visits, store)

/-- Message of app.py lines 197–200. -/
def invalidFormatMsg : String :=
  "Invalid code format. Only letters, numbers, hyphens and underscores are allowed (max 20 chars)"

/-- `check_code_availability` (app.py lines 194–210): invalid format is
always unavailable; otherwise `find_one({'short_code': code,
'expires_at': {'$gt': now}})` decides occupancy. Returns
`(available, message)`. -/
def check_code_availability (store : Store) (short_code : String) (now : Int) :
    Bool × String :=
  if !is_valid_custom_code short_code then
    (false, invalidFormatMsg)
  else
    match store.find? (fun r => r.short_code == short_code && now < r.expires_at) with
    | some _ => (false, "Code already in use")
    | none => (true, "Code available")

/-- `cleanup_expired_urls` (app.py lines 213–215):
`delete_many({'expires_at': {'$lt': now}})`. Returns the surviving
collection and the deleted count. -/
def cleanup_expired_urls (store : Store) (now : Int) : Store × Nat :=
  (store.filter fun r => !(r.expires_at < now),
   (store.filter fun r => r.expires_at < now).length)

/-! ## Helper definitions for concrete scenarios -/

/-- A draw stream whose every `generate_short_code` call yields `"aaaaaa"`. -/
def genA : Nat → Fin 6 → Fin 62 := fun _ _ => ⟨0, by decide⟩

/-- On an empty collection the retry loop terminates at once. -/
theorem exists_fresh_nil (gen : Nat → Fin 6 → Fin 62) :
    ∃ i, freeIn ([] : Store) (randomCode gen i) = true := ⟨0, rfl⟩

/-- A one-record collection whose record (code `"abc"`) is already expired
at time 0. -/
def storeTaken : Store := [mkRecord "u" "abc" 0 (-100) true 1]

/-- The constant stream misses `storeTaken`'s only code immediately. -/
theorem storeTaken_fresh : ∃ i, freeIn storeTaken (randomCode genA i) = true :=
  ⟨0, by decide⟩

/-! ## Store lemmas -/

/-- Looking a code up after the atomic visit update finds the touched
record: `touch` keeps `short_code`. -/
theorem findByCode_updateFirst_touch (s : Store) (c : String) (now : Int) :
    findByCode (updateFirst (fun x => x.short_code == c) (touch now) s) c =
      (findByCode s c).map (touch now) := by
  induction s with
  | nil => rfl
  | cons r rs ih =>
      by_cases h : r.short_code == c
      · simp [updateFirst, findByCode, List.find?, touch, h]
      · have h' : (r.short_code == c) = false := by simpa using h
        simp only [updateFirst, h', Bool.false_eq_true, if_false]
        simp only [findByCode, List.find?] at ih ⊢
        rw [h']
        exact ih

/-- The fields no operation after creation may change. -/
def frameFields (r : LinkRecord) : String × Int × Int × Int :=
  (r.short_code, r.created_at, r.expires_at, r.validity_minutes)

/-- The atomic visit update leaves `short_code`, `created_at`, `expires_at`
and `validity_minutes` of every record untouched. -/
theorem map_frameFields_updateFirst (c : String) (now : Int) (s : Store) :
    (updateFirst (fun x => x.short_code == c) (touch now) s).map frameFields =
      s.map frameFields := by
  induction s with
  | nil => rfl
  | cons r rs ih =>
      by_cases h : r.short_code == c <;>
        simp [updateFirst, h, frameFields, touch, ih]

/-! ## Branch lemmas for `shorten_url` -/

/-- An uncoercible `validity` aborts the request before anything is read
or written. -/
theorem shorten_coerce_none (urlValid : String → Bool) (gen : Nat → Fin 6 → Fin 62)
    (store : Store) (url_raw custom_raw : String) (vraw : PyValue) (t1 t2 : Int)
    (hfresh : ∃ i, freeIn store (randomCode gen i) = true)
    (hv : coerceValidity vraw = none) :
    shorten_url urlValid gen store url_raw custom_raw vraw t1 t2 hfresh =
      (Response.serverError, store) := by
  simp [shorten_url, hv]

/-- The random-code branch: an empty (after trimming) custom code leads to
the retry loop, which inserts the first fresh code of the draw stream. -/
theorem shorten_random_path (urlValid : String → Bool) (gen : Nat → Fin 6 → Fin 62)
    (store : Store) (url_raw custom_raw : String) (vraw : PyValue) (v : Int)
    (t1 t2 : Int) (hfresh : ∃ i, freeIn store (randomCode gen i) = true)
    (hv : coerceValidity vraw = some v)
    (hcustom : (pyStrip custom_raw).isEmpty = true)
    (hurl : (pyStrip url_raw).isEmpty = false)
    (hvalid : urlValid (pyStrip url_raw) = true) :
    shorten_url urlValid gen store url_raw custom_raw vraw t1 t2 hfresh =
      (Response.created (pyStrip url_raw) (randomCode gen (Nat.find hfresh))
         (t1 + minutes v) false,
       store ++ [mkRecord (pyStrip url_raw) (randomCode gen (Nat.find hfresh)) t2
         (t1 + minutes v) false v]) := by
  simp [shorten_url, hv, hcustom, hurl, hvalid]

/-- The custom-code branch on a fresh, valid code inserts that code. -/
theorem shorten_custom_created (urlValid : String → Bool) (gen : Nat → Fin 6 → Fin 62)
    (store : Store) (url_raw custom_raw : String) (vraw : PyValue) (v : Int)
    (t1 t2 : Int) (hfresh : ∃ i, freeIn store (randomCode gen i) = true)
    (hv : coerceValidity vraw = some v)
    (hurl : (pyStrip url_raw).isEmpty = false)
    (hvalid : urlValid (pyStrip url_raw) = true)
    (hct : (pyStrip custom_raw).isEmpty = false)
    (hok : is_valid_custom_code (pyStrip custom_raw) = true)
    (hfree : findByCode store (pyStrip custom_raw) = none) :
    shorten_url urlValid gen store url_raw custom_raw vraw t1 t2 hfresh =
      (Response.created (pyStrip url_raw) (pyStrip custom_raw) (t1 + minutes v) true,
       store ++ [mkRecord (pyStrip url_raw) (pyStrip custom_raw) t2 (t1 + minutes v) true v]) := by
  simp [shorten_url, hv, hurl, hvalid, hct, hok, hfree]

/-- Whatever branch runs, a record the call appended has the shape of the
inserted document: `created_at` from the second clock read `t2`,
`expires_at` from the first clock read `t1`, and `is_custom` true exactly
for a custom code nonempty after trimming. -/
theorem shorten_appended_shape (urlValid : String → Bool) (gen : Nat → Fin 6 → Fin 62)
    (store : Store) (url_raw custom_raw : String) (vraw : PyValue) (t1 t2 : Int)
    (hfresh : ∃ i, freeIn store (randomCode gen i) = true) (r : LinkRecord)
    (h : (shorten_url urlValid gen store url_raw custom_raw vraw t1 t2 hfresh).2 =
      store ++ [r]) :
    ∃ v code, coerceValidity vraw = some v ∧
      r = mkRecord (pyStrip url_raw) code t2 (t1 + minutes v)
        (!(pyStrip custom_raw).isEmpty) v := by
  simp only [shorten_url] at h
  split at h
  · simp at h
  next v hv =>
    split at h
    · simp at h
    split at h
    · simp at h
    split at h
    next hct =>
      split at h
      · simp at h
      split at h
      · simp at h
      · have hr : r = mkRecord (pyStrip url_raw) (pyStrip custom_raw) t2 (t1 + minutes v)
            true v := by
          simpa using h.symm
        refine ⟨v, (pyStrip custom_raw), hv, ?_⟩
        rw [hr, hct]
    next hct =>
      have hempty : (!(pyStrip custom_raw).isEmpty) = false := by
        simpa using hct
      have hr : r = mkRecord (pyStrip url_raw) (randomCode gen (Nat.find hfresh)) t2
          (t1 + minutes v) false v := by
        simpa using h.symm
      refine ⟨v, randomCode gen (Nat.find hfresh), hv, ?_⟩
      rw [hr, hempty]

/-! ## Claim theorems -/

/-- C1: resolving an expired-but-not-yet-deleted code through the redirect
handler increments its `visits` by 1 and sets `last_accessed`, and returns
Expired (410), not NotFound — the atomic visit update happens before the
expiry check. -/
theorem redirect_expired_counts_visit (store : Store) (code : String)
    (now1 now2 : Int) (r : LinkRecord)
    (hfind : findByCode store code = some r)
    (hexp : r.expires_at < now2) :
    (redirect_to_original store code now1 now2).1 = Response.expired ∧
    (redirect_to_original store code now1 now2).1 ≠ Response.notFound ∧
    findByCode (redirect_to_original store code now1 now2).2 code =
      some { r with visits := r.visits + 1, last_accessed := some now1 } := by
  have hres : redirect_to_original store code now1 now2 =
      (Response.expired,
       updateFirst (fun x => x.short_code == code) (touch now1) store) := by
    simp [redirect_to_original, find_one_and_update, hfind, touch, hexp]
  refine ⟨by rw [hres], by rw [hres]; simp, ?_⟩
  rw [hres]
  simp [findByCode_updateFirst_touch, hfind, touch]

/-- C1 witness: the expired record of `storeTaken` is resolved to Expired. -/
theorem redirect_expired_counts_visit_inst :
    (redirect_to_original storeTaken "abc" 0 0).1 = Response.expired ∧
    findByCode (redirect_to_original storeTaken "abc" 0 0).2 "abc" =
      some { mkRecord "u" "abc" 0 (-100) true 1 with
             visits := 1, last_accessed := some 0 } := by
  have h := redirect_expired_counts_visit storeTaken "abc" 0 0
    (mkRecord "u" "abc" 0 (-100) true 1) rfl (by decide)
  exact ⟨h.1, h.2.2⟩

/-- C9: the read-only lookup handler never mutates the store — the state
after the call equals the state before it for every code — while applying
the same expiry check as the redirect handler (404 unknown, 410 expired). -/
theorem get_url_is_readonly (store : Store) (code : String) (now : Int) :
    (get_original_url store code now).2 = store ∧
    (findByCode store code = none →
      (get_original_url store code now).1 = Response.notFound) ∧
    (∀ r, findByCode store code = some r → r.expires_at < now →
      (get_original_url store code now).1 = Response.expired) ∧
    (∀ r, findByCode store code = some r → ¬ r.expires_at < now →
      (get_original_url store code now).1 =
        Response.urlInfo r.original_url r.short_code r.expires_at r.visits) := by
  refine ⟨?_, ?_, ?_, ?_⟩
  · unfold get_original_url
    split
    · rfl
    · split <;> rfl
  · intro hf; simp [get_original_url, hf]
  · intro r hf hx; simp [get_original_url, hf, hx]
  · intro r hf hx; simp [get_original_url, hf, hx]

/-- C9 witness: looking up the expired record of `storeTaken` reports
Expired and leaves the store as it was. -/
theorem get_url_is_readonly_inst :
    (get_original_url storeTaken "abc" 0).2 = storeTaken ∧
    (get_original_url storeTaken "abc" 0).1 = Response.expired := by
  have h := get_url_is_readonly storeTaken "abc" 0
  exact ⟨h.1, h.2.2.1 (mkRecord "u" "abc" 0 (-100) true 1) rfl (by decide)⟩

/-- The acceptance condition of `is_valid_custom_code` spelled out the way
the spec states it, with the per-character test being Python's
`c.isalnum()`: nonempty, at most 20 characters, every character
alphanumeric (in Python's Unicode sense), `-` or `_`. -/
def ValidCodeSpec (code : String) : Prop :=
  code ≠ "" ∧ code.length ≤ 20 ∧
    ∀ c ∈ code.toList, (pyIsAlnum c = true ∨ c = '-' ∨ c = '_')

/-- C5 counterexample: `is_valid_custom_code` accepts `"é"`, whose single
character is neither an ASCII letter, an ASCII digit, `-` nor `_` — the
per-character test is Python's Unicode-aware `isalnum`, not an ASCII one. -/
theorem unicode_letter_code_cex :
    is_valid_custom_code "é" = true ∧
    ¬ ('é'.isAlphanum = true ∨ 'é' = '-' ∨ 'é' = '_') := by decide

/-- C5 (amended): `is_valid_custom_code` returns true exactly for nonempty
strings of at most 20 characters in which every character satisfies
Python's `isalnum` (so non-ASCII Unicode letters are accepted too) or is
`-` or `_`; it returns false for the empty string, strings longer than 20
characters, and strings with any other character (whitespace, Unicode
punctuation, ...). -/
theorem valid_code_characterization (code : String) :
    is_valid_custom_code code = true ↔ ValidCodeSpec code := by
  unfold is_valid_custom_code ValidCodeSpec
  by_cases h1 : code.isEmpty
  · have h0 : code = "" := (String.isEmpty_iff code).mp h1
    subst h0
    decide
  · have h0 : code ≠ "" := fun hc => h1 ((String.isEmpty_iff code).mpr hc)
    rw [if_neg h1]
    by_cases h2 : code.length > 20
    · rw [if_pos h2]
      constructor
      · intro h; simp at h
      · rintro ⟨-, hlen, -⟩; omega
    · rw [if_neg h2, List.all_eq_true]
      constructor
      · intro h
        refine ⟨h0, by omega, ?_⟩
        intro c hc
        have hcc := h c hc
        simp only [Bool.or_eq_true, beq_iff_eq] at hcc
        tauto
      · rintro ⟨-, -, h⟩ c hc
        have hcc := h c hc
        simp only [Bool.or_eq_true, beq_iff_eq]
        tauto

/-- Every code `generate_short_code` produces has exactly 6 characters. -/
theorem generate_short_code_length (pick : Fin 6 → Fin 62) :
    (generate_short_code pick).length = 6 := rfl

/-- Every character of a generated code is drawn from the 62-symbol
alphabet `[A-Za-z0-9]`. -/
theorem generate_short_code_chars (pick : Fin 6 → Fin 62) (c : Char)
    (hc : c ∈ (generate_short_code pick).toList) : c ∈ codeChars := by
  have hlen : codeChars.length = 62 := by decide
  have hc' : c ∈ (List.finRange 6).map fun i => codeChars.getD (pick i).val 'a' := hc
  obtain ⟨i, _, hi⟩ := List.mem_map.mp hc'
  have hlt : (pick i).val < codeChars.length := by rw [hlen]; exact (pick i).isLt
  rw [← hi, List.getD_eq_getElem _ _ hlt]
  exact List.getElem_mem hlt

/-- The read-only lookup handler returns the store unchanged in every
branch. -/
theorem get_original_url_snd (store : Store) (code : String) (now : Int) :
    (get_original_url store code now).2 = store := by
  unfold get_original_url
  split
  · rfl
  · split <;> rfl

/-- The redirect handler's resulting store is whatever the atomic update
produced, in every branch. -/
theorem redirect_snd (store : Store) (code : String) (now1 now2 : Int) :
    (redirect_to_original store code now1 now2).2 =
      (find_one_and_update store code now1).2 := by
  unfold redirect_to_original
  rcases hf : find_one_and_update store code now1 with ⟨o, s⟩
  cases o
  · rfl
  · dsimp only
    split <;> rfl

/-- C7: `check-code` reports unavailable with the format-error message for
every code failing `is_valid_custom_code`; for a valid code it reports
available exactly when no stored record with that `short_code` has
`expires_at` strictly after `now` — so a code held only by an expired,
not-yet-swept record is reported available. -/
theorem check_code_semantics (store : Store) (code : String) (now : Int) :
    ((check_code_availability store code now).1 = true ↔
      (is_valid_custom_code code = true ∧
        ∀ r ∈ store, r.short_code = code → r.expires_at ≤ now)) ∧
    (is_valid_custom_code code = false →
      check_code_availability store code now = (false, invalidFormatMsg)) := by
  constructor
  · by_cases hv : is_valid_custom_code code = true
    · have hcond : (!is_valid_custom_code code) = false := by rw [hv]; rfl
      unfold check_code_availability
      rw [hcond]
      simp only [Bool.false_eq_true, if_false]
      cases hf : store.find?
          (fun r => r.short_code == code && decide (now < r.expires_at)) with
      | none =>
          have hall := List.find?_eq_none.mp hf
          constructor
          · intro _
            refine ⟨hv, ?_⟩
            intro r hr hc
            have hnr := hall r hr
            simp only [Bool.and_eq_true, beq_iff_eq, decide_eq_true_eq,
              not_and] at hnr
            have := hnr hc
            omega
          · intro _; rfl
      | some r =>
          have hmem := List.mem_of_find?_eq_some hf
          have hpred := List.find?_some hf
          simp only [Bool.and_eq_true, beq_iff_eq, decide_eq_true_eq] at hpred
          constructor
          · intro h; simp at h
          · rintro ⟨-, hall⟩
            have := hall r hmem hpred.1
            omega
    · have hv' : is_valid_custom_code code = false := by
        cases hx : is_valid_custom_code code
        · rfl
        · exact absurd hx hv
      have hcond : (!is_valid_custom_code code) = true := by rw [hv']; rfl
      unfold check_code_availability
      rw [hcond]
      simp only [if_true]
      constructor
      · intro h; simp at h
      · rintro ⟨hc, -⟩
        rw [hv'] at hc
        simp at hc
  · intro hv
    simp [check_code_availability, hv]

/-- C7 witness: a malformed code is reported unavailable with the format
message, and the code of `storeTaken`'s expired record is reported
available. -/
theorem check_code_semantics_inst :
    check_code_availability storeTaken "bad code!" 0 = (false, invalidFormatMsg) ∧
    (check_code_availability storeTaken "abc" 0).1 = true := by
  refine ⟨(check_code_semantics storeTaken "bad code!" 0).2 (by decide), ?_⟩
  exact (check_code_semantics storeTaken "abc" 0).1.mpr ⟨by decide, by decide⟩

/-- C6: a shorten request with a valid custom code that some stored record
already holds — expired or not — fails with CodeTaken, creates no record,
and does not fall back to random generation. -/
theorem duplicate_custom_code_rejected (urlValid : String → Bool)
    (gen : Nat → Fin 6 → Fin 62) (store : Store) (url_raw custom_raw : String)
    (vraw : PyValue) (v : Int) (t1 t2 : Int)
    (hfresh : ∃ i, freeIn store (randomCode gen i) = true)
    (hv : coerceValidity vraw = some v)
    (hurl : (pyStrip url_raw).isEmpty = false)
    (hvalid : urlValid (pyStrip url_raw) = true)
    (hct : (pyStrip custom_raw).isEmpty = false)
    (hok : is_valid_custom_code (pyStrip custom_raw) = true)
    (htaken : (findByCode store (pyStrip custom_raw)).isSome = true) :
    shorten_url urlValid gen store url_raw custom_raw vraw t1 t2 hfresh =
      (Response.badRequest codeTakenMsg, store) := by
  simp [shorten_url, hv, hurl, hvalid, hct, hok, htaken]

/-- C6 witness: `storeTaken`'s code `"abc"` is expired but unswept, and a
second shorten request for `"abc"` still gets CodeTaken with the store
unchanged. -/
theorem duplicate_custom_code_rejected_inst :
    shorten_url (fun _ => true) genA storeTaken "https://example.com" "abc"
      PyValue.absent 0 0 storeTaken_fresh =
      (Response.badRequest codeTakenMsg, storeTaken) :=
  duplicate_custom_code_rejected (fun _ => true) genA storeTaken
    "https://example.com" "abc" PyValue.absent 30 0 0 storeTaken_fresh
    rfl (by decide) rfl (by decide) (by decide) (by decide)

/-- C2 counterexample: a non-numeric-coercible `validity` (`"abc"`) does
not fall back to the default of 30 minutes — the request dies with an
uncaught `ValueError` (HTTP 500) and no record is created. -/
theorem validity_noncoercible_fails_cex :
    shorten_url (fun _ => true) genA ([] : Store) "https://example.com" ""
      (PyValue.pyStr "abc") 0 0 (exists_fresh_nil genA) =
      (Response.serverError, []) :=
  shorten_coerce_none (fun _ => true) genA [] "https://example.com" ""
    (PyValue.pyStr "abc") 0 0 (exists_fresh_nil genA) (by decide)

/-- C2 (amended): the TTL is the caller-supplied validity coerced with
Python `int()` (floats truncate toward zero); the default of 30 applies
only when `validity` is omitted; a present but non-numeric-coercible value
makes the request fail with an unhandled exception instead of defaulting;
any coercible value — negative or zero included — is accepted as-is and
stamps `expires_at = t1 + 60·v`. -/
theorem validity_coercion_semantics :
    (coerceValidity PyValue.absent = some 30) ∧
    (∀ q : ℚ, coerceValidity (PyValue.pyFloat q) = some (ratTrunc q)) ∧
    (∀ (urlValid : String → Bool) (gen : Nat → Fin 6 → Fin 62) (store : Store)
      (url_raw custom_raw : String) (vraw : PyValue) (t1 t2 : Int)
      (hfresh : ∃ i, freeIn store (randomCode gen i) = true),
      coerceValidity vraw = none →
      shorten_url urlValid gen store url_raw custom_raw vraw t1 t2 hfresh =
        (Response.serverError, store)) ∧
    (∀ (urlValid : String → Bool) (gen : Nat → Fin 6 → Fin 62) (store : Store)
      (url_raw : String) (vraw : PyValue) (v : Int) (t1 t2 : Int)
      (hfresh : ∃ i, freeIn store (randomCode gen i) = true),
      coerceValidity vraw = some v →
      (pyStrip url_raw).isEmpty = false →
      urlValid (pyStrip url_raw) = true →
      shorten_url urlValid gen store url_raw "" vraw t1 t2 hfresh =
        (Response.created (pyStrip url_raw) (randomCode gen (Nat.find hfresh))
           (t1 + minutes v) false,
         store ++ [mkRecord (pyStrip url_raw) (randomCode gen (Nat.find hfresh)) t2
           (t1 + minutes v) false v])) := by
  refine ⟨rfl, fun q => rfl, ?_, ?_⟩
  · intro urlValid gen store url_raw custom_raw vraw t1 t2 hfresh hv
    exact shorten_coerce_none urlValid gen store url_raw custom_raw vraw t1 t2
      hfresh hv
  · intro urlValid gen store url_raw vraw v t1 t2 hfresh hv hurl hvalid
    exact shorten_random_path urlValid gen store url_raw "" vraw v t1 t2 hfresh
      hv rfl hurl hvalid

/-- C2 witness: a JSON `null` validity also aborts the request. -/
theorem validity_coercion_semantics_inst :
    shorten_url (fun _ => true) genA ([] : Store) "https://example.com" "x"
      PyValue.pyNone 0 0 (exists_fresh_nil genA) = (Response.serverError, []) :=
  validity_coercion_semantics.2.2.1 (fun _ => true) genA [] "https://example.com"
    "x" PyValue.pyNone 0 0 (exists_fresh_nil genA) rfl

/-- C3 counterexample: with the two clock reads of `shorten_url` 60
seconds apart (`t1 = 0` at the expiry computation of line 81, `t2 = 60` at
the insertion of line 109), the created record has `expires_at = 1800` but
`created_at + 60·validity_minutes = 1860`: `expires_at` is derived from an
earlier clock read than `created_at`. -/
theorem expires_at_clock_skew_cex :
    (shorten_url (fun _ => true) genA ([] : Store) "https://example.com" "abc"
      PyValue.absent 0 60 (exists_fresh_nil genA)).2 =
      [mkRecord "https://example.com" "abc" 60 1800 true 30] ∧
    ¬ ((mkRecord "https://example.com" "abc" 60 1800 true 30).expires_at =
        (mkRecord "https://example.com" "abc" 60 1800 true 30).created_at +
          minutes (mkRecord "https://example.com" "abc" 60 1800 true
            30).validity_minutes) :=
  ⟨by decide, by decide⟩

/-- C3 (amended): every record the shorten operation creates has
`expires_at = t1 + 60·validity_minutes` where `t1` is the clock read of the
expiry computation; `created_at` comes from the later clock read `t2`, so
`expires_at = created_at + 60·validity_minutes` holds exactly when the two
reads coincide; and no later operation — redirect, read-only lookup, or the
sweeper — recomputes or changes any surviving record's `expires_at` (the
redirect changes only `visits`/`last_accessed`, the lookup changes nothing,
the sweeper only deletes). -/
theorem expires_at_set_once :
    (∀ (urlValid : String → Bool) (gen : Nat → Fin 6 → Fin 62) (store : Store)
      (url_raw custom_raw : String) (vraw : PyValue) (t1 t2 : Int)
      (hfresh : ∃ i, freeIn store (randomCode gen i) = true) (r : LinkRecord),
      (shorten_url urlValid gen store url_raw custom_raw vraw t1 t2 hfresh).2 =
        store ++ [r] →
      r.expires_at = t1 + minutes r.validity_minutes ∧ r.created_at = t2 ∧
        (t1 = t2 →
          r.expires_at = r.created_at + minutes r.validity_minutes)) ∧
    (∀ (store : Store) (code : String) (now1 now2 : Int),
      ((redirect_to_original store code now1 now2).2).map frameFields =
        store.map frameFields) ∧
    (∀ (store : Store) (code : String) (now : Int),
      (get_original_url store code now).2 = store) ∧
    (∀ (store : Store) (now : Int) (r : LinkRecord),
      r ∈ (cleanup_expired_urls store now).1 → r ∈ store) := by
  refine ⟨?_, ?_, ?_, ?_⟩
  · intro urlValid gen store url_raw custom_raw vraw t1 t2 hfresh r h
    obtain ⟨v, c, hv, hr⟩ := shorten_appended_shape urlValid gen store url_raw
      custom_raw vraw t1 t2 hfresh r h
    subst hr
    refine ⟨rfl, rfl, ?_⟩
    intro ht
    show t1 + minutes v = t2 + minutes v
    rw [ht]
  · intro store code now1 now2
    rw [redirect_snd]
    unfold find_one_and_update
    split
    · rfl
    · exact map_frameFields_updateFirst code now1 store
  · intro store code now
    exact get_original_url_snd store code now
  · intro store now r hr
    exact List.mem_of_mem_filter hr


/-- C3 witness: the amended invariant at the concrete skewed-clock
creation. -/
theorem expires_at_set_once_inst :
    (mkRecord "https://example.com" "abc" 60 1800 true 30).expires_at =
      0 + minutes (mkRecord "https://example.com" "abc" 60 1800 true
        30).validity_minutes ∧
    (mkRecord "https://example.com" "abc" 60 1800 true 30).created_at = 60 ∧
    ((0 : Int) = 60 →
      (mkRecord "https://example.com" "abc" 60 1800 true 30).expires_at =
        (mkRecord "https://example.com" "abc" 60 1800 true 30).created_at +
          minutes (mkRecord "https://example.com" "abc" 60 1800 true
            30).validity_minutes) :=
  expires_at_set_once.1 (fun _ => true) genA [] "https://example.com" "abc"
    PyValue.absent 0 60 (exists_fresh_nil genA)
    (mkRecord "https://example.com" "abc" 60 1800 true 30) (by decide)

/-- C4 counterexample: a whitespace-only custom code (three spaces) is
stripped to the empty string before validation ever runs, so instead of
failing with InvalidCode the request falls through to random generation
and creates a record — even though `is_valid_custom_code` rejects the
whitespace-only string itself. -/
theorem whitespace_custom_code_cex :
    shorten_url (fun _ => true) genA ([] : Store) "https://example.com" "   "
      PyValue.absent 0 0 (exists_fresh_nil genA) =
      (Response.created "https://example.com" "aaaaaa" 1800 false,
       [mkRecord "https://example.com" "aaaaaa" 0 1800 false 30]) ∧
    is_valid_custom_code "   " = false := by
  have hfind : Nat.find (exists_fresh_nil genA) = 0 :=
    (Nat.find_eq_zero (exists_fresh_nil genA)).mpr rfl
  have h := shorten_random_path (fun _ => true) genA [] "https://example.com"
    "   " PyValue.absent 30 0 0 (exists_fresh_nil genA) rfl (by decide)
    (by decide) rfl
  rw [h, hfind]
  exact ⟨by decide, by decide⟩

/-- C4 (amended): a supplied custom code that is still nonempty after
stripping and fails validation is rejected with InvalidCode (400) and no
record is created; a whitespace-only custom code, however, strips to empty
and is treated as absent, so the request proceeds to random generation. -/
theorem invalid_custom_code_rejected (urlValid : String → Bool)
    (gen : Nat → Fin 6 → Fin 62) (store : Store) (url_raw custom_raw : String)
    (vraw : PyValue) (v : Int) (t1 t2 : Int)
    (hfresh : ∃ i, freeIn store (randomCode gen i) = true)
    (hv : coerceValidity vraw = some v)
    (hurl : (pyStrip url_raw).isEmpty = false)
    (hvalid : urlValid (pyStrip url_raw) = true)
    (hct : (pyStrip custom_raw).isEmpty = false)
    (hinv : is_valid_custom_code (pyStrip custom_raw) = false) :
    shorten_url urlValid gen store url_raw custom_raw vraw t1 t2 hfresh =
      (Response.badRequest invalidCustomMsg, store) := by
  simp [shorten_url, hv, hurl, hvalid, hct, hinv]

/-- C4 witness: `"bad code!"` (space and `!`) is rejected and nothing is
inserted. -/
theorem invalid_custom_code_rejected_inst :
    shorten_url (fun _ => true) genA ([] : Store) "https://example.com"
      "bad code!" PyValue.absent 0 0 (exists_fresh_nil genA) =
      (Response.badRequest invalidCustomMsg, []) :=
  invalid_custom_code_rejected (fun _ => true) genA [] "https://example.com"
    "bad code!" PyValue.absent 30 0 0 (exists_fresh_nil genA) rfl (by decide)
    rfl (by decide) (by decide)

/-- C8: with no custom code, shorten inserts the first code of the random
draw stream absent from the collection: every generated code has 6
characters over [A-Za-z0-9]; every draw before the chosen index had hit an
existing code (the loop retried); the chosen index `Nat.find hfresh` is
unbounded — the statement holds for every terminating draw stream, however
many retries it takes — and exactly one record is appended as soon as a
generated code is fresh. -/
theorem random_code_retry_semantics (urlValid : String → Bool)
    (gen : Nat → Fin 6 → Fin 62) (store : Store) (url_raw custom_raw : String)
    (vraw : PyValue) (v : Int) (t1 t2 : Int)
    (hfresh : ∃ i, freeIn store (randomCode gen i) = true)
    (hv : coerceValidity vraw = some v)
    (hcustom : (pyStrip custom_raw).isEmpty = true)
    (hurl : (pyStrip url_raw).isEmpty = false)
    (hvalid : urlValid (pyStrip url_raw) = true) :
    shorten_url urlValid gen store url_raw custom_raw vraw t1 t2 hfresh =
      (Response.created (pyStrip url_raw)
         (randomCode gen (Nat.find hfresh)) (t1 + minutes v) false,
       store ++ [mkRecord (pyStrip url_raw)
         (randomCode gen (Nat.find hfresh)) t2 (t1 + minutes v) false v]) ∧
    (randomCode gen (Nat.find hfresh)).length = 6 ∧
    (∀ c ∈ (randomCode gen (Nat.find hfresh)).toList, c ∈ codeChars) ∧
    freeIn store (randomCode gen (Nat.find hfresh)) = true ∧
    (∀ j, j < Nat.find hfresh → freeIn store (randomCode gen j) = false) := by
  refine ⟨shorten_random_path urlValid gen store url_raw custom_raw vraw v t1
      t2 hfresh hv hcustom hurl hvalid,
    generate_short_code_length (gen (Nat.find hfresh)),
    fun c hc => generate_short_code_chars (gen (Nat.find hfresh)) c hc,
    Nat.find_spec hfresh, ?_⟩
  intro j hj
  have hmin := Nat.find_min hfresh hj
  simpa using hmin

/-- C8 witness: on the empty store the first draw is free and 6 characters
long. -/
theorem random_code_retry_semantics_inst :
    freeIn ([] : Store) (randomCode genA (Nat.find (exists_fresh_nil genA))) =
      true ∧
    (randomCode genA (Nat.find (exists_fresh_nil genA))).length = 6 := by
  have h := random_code_retry_semantics (fun _ => true) genA []
    "https://example.com" "" PyValue.absent 30 0 0 (exists_fresh_nil genA)
    rfl rfl (by decide) rfl
  exact ⟨h.2.2.2.1, h.2.1⟩

/-- C10: every record a successful shorten request appends starts with
`visits = 0`, `last_accessed` null (absent), and `is_custom` true exactly
when the caller supplied a custom code nonempty after trimming. -/
theorem fresh_record_initialized (urlValid : String → Bool)
    (gen : Nat → Fin 6 → Fin 62) (store : Store) (url_raw custom_raw : String)
    (vraw : PyValue) (t1 t2 : Int)
    (hfresh : ∃ i, freeIn store (randomCode gen i) = true) (r : LinkRecord)
    (h : (shorten_url urlValid gen store url_raw custom_raw vraw t1 t2
      hfresh).2 = store ++ [r]) :
    r.visits = 0 ∧ r.last_accessed = none ∧
      r.is_custom = !(pyStrip custom_raw).isEmpty := by
  obtain ⟨v, c, hv, hr⟩ := shorten_appended_shape urlValid gen store url_raw
    custom_raw vraw t1 t2 hfresh r h
  subst hr
  exact ⟨rfl, rfl, rfl⟩

/-- C10 witness: the concrete custom-code creation starts at zero visits,
no `last_accessed`, and `is_custom = true`. -/
theorem fresh_record_initialized_inst :
    (mkRecord "https://example.com" "abc" 60 1800 true 30).visits = 0 ∧
    (mkRecord "https://example.com" "abc" 60 1800 true 30).last_accessed =
      none ∧
    (mkRecord "https://example.com" "abc" 60 1800 true 30).is_custom =
      !(pyStrip "abc").isEmpty :=
  fresh_record_initialized (fun _ => true) genA [] "https://example.com" "abc"
    PyValue.absent 0 60 (exists_fresh_nil genA)
    (mkRecord "https://example.com" "abc" 60 1800 true 30) (by decide)

end UrlShortener
